import Mathlib

/-!
Shallow embedding of the selector-healing core of the ai-healer-django
repository (curertestai app): DOM fingerprinting (fingerprint.py), the
similarity-ranking engine (matching_engine.py), the validation and
arbitration engine (validation_engine.py), the change-level heuristic and
request boundary (views.py, main.py), and the request serializer
(serializers.py).

Python strings are modelled as Lean strings over their code points;
str.lower is modelled on the ASCII range (the repository's selectors,
attribute keys and policy patterns are ASCII).  Python floats are modelled
as exact rationals.  External backends (the sentence-embedding model, the
FAISS/sklearn retrieval index, the regex engine used on configurable
policy patterns, the LLM advisory scorer and the database query results)
enter as explicit parameters, with the surrounding code translated
faithfully from the source.
-/

namespace HealerSpec

/-- ASCII model of Python str.lower on a single character. -/
def pyLowerChar (c : Char) : Char :=
  match c with
  | 'A' => 'a' | 'B' => 'b' | 'C' => 'c' | 'D' => 'd' | 'E' => 'e'
  | 'F' => 'f' | 'G' => 'g' | 'H' => 'h' | 'I' => 'i' | 'J' => 'j'
  | 'K' => 'k' | 'L' => 'l' | 'M' => 'm' | 'N' => 'n' | 'O' => 'o'
  | 'P' => 'p' | 'Q' => 'q' | 'R' => 'r' | 'S' => 's' | 'T' => 't'
  | 'U' => 'u' | 'V' => 'v' | 'W' => 'w' | 'X' => 'x' | 'Y' => 'y'
  | 'Z' => 'z' | c => c

/-- Python str.lower over a whole string. -/
def pyLower (s : String) : String := ⟨s.data.map pyLowerChar⟩

/-- Python str.strip on a character list: drop whitespace from both ends. -/
def pyStripChars (l : List Char) : List Char :=
  ((l.dropWhile Char.isWhitespace).reverse.dropWhile Char.isWhitespace).reverse

/-- Maximal runs of non-whitespace characters, as Python str.split() with no
argument produces (empty runs discarded). -/
def pyWordRuns (l : List Char) : List (List Char) :=
  (l.foldr
    (fun c acc =>
      if c.isWhitespace then [] :: acc
      else
        match acc with
        | [] => [[c]]
        | w :: ws => (c :: w) :: ws)
    []).filter (fun w => decide (w ≠ []))

/-- Python s.split() (whitespace split, empties discarded). -/
def pySplitWs (s : String) : List String := (pyWordRuns s.data).map (fun w => ⟨w⟩)

/-- Python "needle in haystack" substring test. -/
def pyContains (haystack needle : String) : Bool :=
  decide (needle.data.IsInfix haystack.data)

/-! ## fingerprint.py -/

/-- Source _norm: " ".join(text.strip().lower().split()).  The strip is
absorbed by split, which already discards boundary whitespace. -/
def fpNorm (s : String) : String :=
  String.intercalate " " (pySplitWs (pyLower s))

/-- Source _truncate: _norm(text) truncated to 80 code points. -/
def fpTruncate (s : String) : String := ⟨(fpNorm s).data.take 80⟩

/-- One extracted DOM element record, with the fields the healing core
reads.  Attributes are the element's attribute mapping as key/value pairs
with distinct keys. -/
structure Element where
  tag : String := ""
  text : String := ""
  accessible_name : String := ""
  attributes : List (String × String) := []
  selector : String := ""
  xpath : String := ""
  role : String := ""
deriving DecidableEq

/-- Python attrs.get(key) with a missing key collapsed to "", as every use
site does via str(... or "") or truthiness tests. -/
def getAttr (el : Element) (key : String) : String :=
  ((el.attributes.find? (fun p => decide (p.1 = key))).map Prod.snd).getD ""

/-- Attribute keys tokenized by build_dom_signature_tokens. -/
def sigTokenKeys : List String :=
  ["id", "class", "role", "aria-label", "data-testid", "type", "name"]

/-- Signature tokens contributed by one element: tag, the allow-listed
attributes, and the text (falling back to accessible_name), each normalized
and tagged with its kind. -/
def elementTokens (el : Element) : Finset String :=
  let tagTok : Finset String :=
    if fpNorm el.tag ≠ "" then {"tag:" ++ fpNorm el.tag} else ∅
  let attrToks : Finset String :=
    (sigTokenKeys.map (fun key =>
      if fpNorm (getAttr el key) ≠ "" then
        ({key ++ ":" ++ fpNorm (getAttr el key)} : Finset String)
      else ∅)).foldr (· ∪ ·) ∅
  let textSrc := if el.text ≠ "" then el.text else el.accessible_name
  let textTok : Finset String :=
    if fpTruncate textSrc ≠ "" then {"text:" ++ fpTruncate textSrc} else ∅
  tagTok ∪ (attrToks ∪ textTok)

/-- Source build_dom_signature_tokens: the union of the per-element token
sets of the first 800 elements. -/
def build_dom_signature_tokens (elements : List Element) : Finset String :=
  ((elements.take 800).map elementTokens).foldr (· ∪ ·) ∅

/-- Payload hashed by generate_dom_fingerprint: tokens sorted
lexicographically, joined with "||". -/
def fingerprint_payload (elements : List Element) : String :=
  String.intercalate "||" (Finset.sort (· ≤ ·) (build_dom_signature_tokens elements))

/-- Source generate_dom_fingerprint, parametric in the SHA-256 hex digest
function applied to the canonical payload. -/
def generate_dom_fingerprint (sha256_hex : String → String)
    (elements : List Element) : String :=
  sha256_hex (fingerprint_payload elements)

/-- Source jaccard_similarity, with the either-empty guard returning 0.0. -/
def jaccard_similarity (a b : Finset String) : ℚ :=
  if a = ∅ ∨ b = ∅ then 0
  else if a ∪ b = ∅ then 0
  else ((a ∩ b).card : ℚ) / ((a ∪ b).card : ℚ)

instance : LeftCommutative (fun (s t : Finset String) => s ∪ t) :=
  ⟨fun a b c => Finset.union_left_comm a b c⟩

lemma foldr_union_replicate (n : ℕ) (s : Finset String) :
    (List.replicate (n + 1) s).foldr (· ∪ ·) ∅ = s := by
  induction n with
  | zero => simp
  | succ n ih => rw [List.replicate_succ]; simp only [List.foldr_cons, ih]; exact Finset.union_self s

def elA : Element := { tag := "a" }

def elB : Element := { tag := "b" }

lemma elementTokens_elA : elementTokens elA = {"tag:a"} := by decide

lemma elementTokens_elB : elementTokens elB = {"tag:b"} := by decide

/-- C3 (amended): for element lists of length at most 800, the signature
token set and the fingerprint digest are invariant under permutation; the
token set is only built from the first 800 elements, so the restriction is
necessary. -/
theorem c3_fingerprint_perm_invariant (l₁ l₂ : List Element)
    (hperm : l₁.Perm l₂) (hlen : l₁.length ≤ 800) :
    build_dom_signature_tokens l₁ = build_dom_signature_tokens l₂
    ∧ ∀ sha256_hex : String → String,
        generate_dom_fingerprint sha256_hex l₁ = generate_dom_fingerprint sha256_hex l₂ := by
  have hlen₂ : l₂.length ≤ 800 := hperm.length_eq ▸ hlen
  have htok : build_dom_signature_tokens l₁ = build_dom_signature_tokens l₂ := by
    unfold build_dom_signature_tokens
    rw [List.take_of_length_le hlen, List.take_of_length_le hlen₂]
    exact (hperm.map elementTokens).foldr_eq ∅
  refine ⟨htok, fun sha256_hex => ?_⟩
  unfold generate_dom_fingerprint fingerprint_payload
  rw [htok]

/-- C3 witness: a concrete two-element permutation with equal tokens and
digests. -/
theorem c3_fingerprint_perm_invariant_witness :
    (([elA, elB].Perm [elB, elA]) ∧ [elA, elB].length ≤ 800)
    ∧ (build_dom_signature_tokens [elA, elB] = build_dom_signature_tokens [elB, elA]
       ∧ ∀ sha256_hex : String → String,
           generate_dom_fingerprint sha256_hex [elA, elB]
             = generate_dom_fingerprint sha256_hex [elB, elA]) :=
  ⟨⟨List.Perm.swap elB elA [], by decide⟩,
    c3_fingerprint_perm_invariant [elA, elB] [elB, elA] (List.Perm.swap elB elA []) (by decide)⟩

/-- C3 counterexample: an 801-element list and a permutation of it whose
signature token sets differ, because tokenization stops after the first 800
elements.  Hence the fingerprint is not permutation-invariant for every
list. -/
theorem c3_counterexample :
    (List.replicate 800 elA ++ [elB]).Perm (elB :: List.replicate 800 elA)
    ∧ build_dom_signature_tokens (List.replicate 800 elA ++ [elB])
        ≠ build_dom_signature_tokens (elB :: List.replicate 800 elA) := by
  constructor
  · exact List.perm_append_singleton elB (List.replicate 800 elA)
  · have h1 : build_dom_signature_tokens (List.replicate 800 elA ++ [elB]) = {"tag:a"} := by
      unfold build_dom_signature_tokens
      have hle : (800 : ℕ) ≤ (List.replicate 800 elA).length := by
        rw [List.length_replicate]
      rw [List.take_append_of_le_length hle, List.take_replicate]
      simp only [min_self, List.map_replicate, elementTokens_elA]
      exact foldr_union_replicate 799 {"tag:a"}
    have h2 : build_dom_signature_tokens (elB :: List.replicate 800 elA)
        = {"tag:b"} ∪ {"tag:a"} := by
      unfold build_dom_signature_tokens
      rw [List.take_succ_cons, List.take_replicate]
      simp only [List.map_cons, List.map_replicate, List.foldr_cons, elementTokens_elA,
        elementTokens_elB]
      rw [show min 799 800 = 798 + 1 by omega, foldr_union_replicate 798 {"tag:a"}]
    rw [h1, h2]
    decide

/-! ## views.py change-level heuristic (HealAPIView._detect_ui_change_level) -/

/-- Text blob searched for selector hints, per _selector_hint_exists:
text, accessible name, selector and key attributes joined and lowercased. -/
def hint_blob (el : Element) : String :=
  pyLower (String.intercalate " "
    [el.text, el.accessible_name, el.selector, getAttr el "id", getAttr el "class",
     getAttr el "data-testid", getAttr el "aria-label", getAttr el "name"])

/-- Source _selector_hint_exists: scan up to 1000 elements for any hint
occurring as a substring of the element blob. -/
def selector_hint_exists (elements : List Element) (hints : List String) : Bool :=
  if hints.isEmpty then false
  else (elements.take 1000).any (fun el => hints.any (fun h => pyContains (hint_blob el) h))

/-- Tail of _detect_ui_change_level once a previous successful baseline was
found and re-extracted: the removal-hint check, then the Jaccard thresholds
on the two signatures. -/
def detect_change_with_baseline (previous_elements current_elements : List Element)
    (hints : List String) : String :=
  if hints ≠ [] ∧ selector_hint_exists previous_elements hints = true
      ∧ selector_hint_exists current_elements hints = false then "ELEMENT_REMOVED"
  else
    let similarity := jaccard_similarity (build_dom_signature_tokens previous_elements)
      (build_dom_signature_tokens current_elements)
    if similarity ≥ 90 / 100 then "UNCHANGED"
    else if similarity ≥ 70 / 100 then "MINOR_CHANGE"
    else "MAJOR_CHANGE"

lemma jaccard_self (s : Finset String) (h : s ≠ ∅) : jaccard_similarity s s = 1 := by
  unfold jaccard_similarity
  rw [if_neg (by simp [h]), if_neg (by simp [Finset.union_self, h])]
  rw [Finset.inter_self, Finset.union_self]
  have hc : (s.card : ℚ) ≠ 0 := by
    simp only [ne_eq, Nat.cast_eq_zero, Finset.card_eq_zero]
    exact h
  exact div_self hc

/-- C7 (amended): when the removal-hint check does not fire, the classifier
returns UNCHANGED for Jaccard similarity at least 0.90, MINOR_CHANGE for at
least 0.70, and MAJOR_CHANGE otherwise; identical element lists yield
UNCHANGED whenever their signature token set is non-empty (for an empty
signature the Jaccard guard returns 0 and the result is MAJOR_CHANGE). -/
theorem c7_change_classifier (previous_elements current_elements : List Element)
    (hints : List String)
    (hremoval : ¬ (hints ≠ [] ∧ selector_hint_exists previous_elements hints = true
        ∧ selector_hint_exists current_elements hints = false)) :
    detect_change_with_baseline previous_elements current_elements hints
      = (if jaccard_similarity (build_dom_signature_tokens previous_elements)
              (build_dom_signature_tokens current_elements) ≥ 90 / 100 then "UNCHANGED"
         else if jaccard_similarity (build_dom_signature_tokens previous_elements)
              (build_dom_signature_tokens current_elements) ≥ 70 / 100 then "MINOR_CHANGE"
         else "MAJOR_CHANGE")
    ∧ (build_dom_signature_tokens current_elements ≠ ∅ →
        detect_change_with_baseline current_elements current_elements hints = "UNCHANGED") := by
  constructor
  · unfold detect_change_with_baseline
    rw [if_neg hremoval]
  · intro hne
    unfold detect_change_with_baseline
    rw [if_neg (fun hc => by rw [hc.2.1] at hc; exact Bool.noConfusion hc.2.2)]
    simp only [jaccard_self _ hne]
    rw [if_pos (by norm_num)]

/-- C7 witness: identical singleton lists with a non-empty signature are
classified UNCHANGED, and the threshold shape holds for them. -/
theorem c7_change_classifier_witness :
    (¬ (([] : List String) ≠ [] ∧ selector_hint_exists [elA] [] = true
        ∧ selector_hint_exists [elA] [] = false))
    ∧ (detect_change_with_baseline [elA] [elA] []
        = (if jaccard_similarity (build_dom_signature_tokens [elA])
                (build_dom_signature_tokens [elA]) ≥ 90 / 100 then "UNCHANGED"
           else if jaccard_similarity (build_dom_signature_tokens [elA])
                (build_dom_signature_tokens [elA]) ≥ 70 / 100 then "MINOR_CHANGE"
           else "MAJOR_CHANGE")
       ∧ (build_dom_signature_tokens [elA] ≠ ∅ →
          detect_change_with_baseline [elA] [elA] [] = "UNCHANGED")) :=
  ⟨by decide, c7_change_classifier [elA] [elA] [] (by decide)⟩

/-- C7 counterexample: identical (empty) element lists fed as baseline and
current are classified MAJOR_CHANGE, not UNCHANGED, because the Jaccard
similarity of two empty signatures is defined to be 0. -/
theorem c7_counterexample :
    detect_change_with_baseline [] [] [] = "MAJOR_CHANGE"
    ∧ detect_change_with_baseline [] [] [] ≠ "UNCHANGED" := by
  have htok : build_dom_signature_tokens [] = ∅ := rfl
  have hjac : jaccard_similarity (build_dom_signature_tokens [])
      (build_dom_signature_tokens []) = 0 := by
    rw [htok]; unfold jaccard_similarity; rw [if_pos (Or.inl rfl)]
  have hdet : detect_change_with_baseline [] [] [] = "MAJOR_CHANGE" := by
    unfold detect_change_with_baseline
    rw [if_neg (by simp)]
    simp only [hjac]
    rw [if_neg (by norm_num), if_neg (by norm_num)]
  exact ⟨hdet, by rw [hdet]; decide⟩

/-! ## matching_engine.py -/

/-- Source normalize_text: collapse whitespace runs to single spaces and
strip the ends, i.e. the word runs joined by single spaces. -/
def normalize_text (s : String) : String := String.intercalate " " (pySplitWs s)

/-- Source overlap_ratio: Jaccard overlap of lowercased whitespace tokens,
0 when either side has no tokens. -/
def overlap_ratio (a b : String) : ℚ :=
  let aT := (pySplitWs (pyLower a)).toFinset
  let bT := (pySplitWs (pyLower b)).toFinset
  if aT = ∅ ∨ bT = ∅ then 0
  else ((aT ∩ bT).card : ℚ) / ((aT ∪ bT).card : ℚ)

/-- Characters matched by the regex class [\w\-] (ASCII model). -/
def isWordChar (c : Char) : Bool := c.isAlphanum || c = '_' || c = '-'

/-- First match of the regex search for an id fragment (a hash sign followed
by one or more word characters), as used on the failed selector. -/
def firstIdFragment : List Char → Option String
  | [] => none
  | c :: rest =>
    if c = '#' then
      let tok := rest.takeWhile isWordChar
      if tok.isEmpty then firstIdFragment rest else some ⟨tok⟩
    else firstIdFragment rest

/-- Scanner state for classFragments: a positive skip count consumes the
characters of the previously matched token, as regex findall resumes after
each non-overlapping match. -/
def classFragsAux : List Char → ℕ → List String
  | [], _ => []
  | _ :: rest, Nat.succ k => classFragsAux rest k
  | c :: rest, 0 =>
    if c = '.' then
      let tok := rest.takeWhile isWordChar
      if tok.isEmpty then classFragsAux rest 0
      else (⟨tok⟩ : String) :: classFragsAux rest tok.length
    else classFragsAux rest 0

/-- All matches of the regex findall for class fragments (a dot followed by
one or more word characters). -/
def classFragments (l : List Char) : List String := classFragsAux l 0

/-- Source escape_attr: backslash-escape double quotes. -/
def escape_attr (v : String) : String :=
  ⟨v.data.foldr
    (fun c acc => if c = Char.ofNat 34 then Char.ofNat 92 :: c :: acc else c :: acc) []⟩

/-- Source build_css_from_element: regenerate a selector with priority
id, aria-label, href (tail-matched when longer than 40), first class token,
role, xpath fallback, bare tag.  The tag default "a" applies when the tag is
missing. -/
def build_css_from_element (el : Element) : String :=
  let tag := if el.tag = "" then "a" else el.tag
  if getAttr el "id" ≠ "" then "#" ++ getAttr el "id"
  else if getAttr el "aria-label" ≠ "" then
    tag ++ "[aria-label=\"" ++ escape_attr (getAttr el "aria-label") ++ "\"]"
  else if getAttr el "href" ≠ "" then
    let href := getAttr el "href"
    if href.length > 40 then
      let stripped : String := ⟨(href.data.reverse.dropWhile (fun c => c = '/')).reverse⟩
      let tail := (stripped.split (fun c => c = '/')).getLastD ""
      tag ++ "[href$=\"" ++ escape_attr tail ++ "\"]"
    else tag ++ "[href=\"" ++ escape_attr href ++ "\"]"
  else if getAttr el "class" ≠ "" then
    tag ++ "." ++ (pySplitWs (getAttr el "class")).headD ""
  else if el.role ≠ "" then tag ++ "[role=\"" ++ escape_attr el.role ++ "\"]"
  else if el.xpath ≠ "" then "XPATH: " ++ el.xpath
  else tag

/-- Source attribute_score: rule-based score from id match, aria-label and
href token overlap with the intent text, and class-fragment overlap with the
failed selector, clamped to at most 1. -/
def attribute_score (el : Element) (selector semantic : String) : ℚ :=
  let found := firstIdFragment selector.data
  let s1 : ℚ := if found = some (getAttr el "id") then 6 / 10 else 0
  let s2 : ℚ :=
    if getAttr el "aria-label" ≠ "" then
      (3 / 10) * overlap_ratio (getAttr el "aria-label") semantic
    else 0
  let s3 : ℚ :=
    if getAttr el "href" ≠ "" then (2 / 10) * overlap_ratio (getAttr el "href") semantic
    else 0
  let clsTokens := (pySplitWs (getAttr el "class")).toFinset
  let selCls := (classFragments selector.data).toFinset
  let s4 : ℚ := if clsTokens ∩ selCls ≠ ∅ then 2 / 10 else 0
  min 1 (s1 + s2 + s3 + s4)

/-- One entry of the list returned by MatchingEngine.rank. -/
structure RankResult where
  index : ℕ
  score : ℚ
  base : ℚ
  attr : ℚ
  element : Element
  suggested : String
deriving DecidableEq

/-- Source MatchingEngine.rank given the retrieval output: the index hands
back pairs of element index and cosine similarity; rank blends each with the
attribute score and sorts descending by final score (stable, as the Python
sort is; insertion sort over the same total preorder yields the identical
list). -/
def rank (elements : List Element) (retrieved : List (ℕ × ℚ))
    (selector semantic : String) : List RankResult :=
  let results := retrieved.map (fun hit =>
    let el := elements.getD hit.1 {}
    let base := hit.2
    let attr := attribute_score el selector semantic
    { index := hit.1, score := (7 / 10) * base + (3 / 10) * attr, base := base, attr := attr,
      element := el, suggested := build_css_from_element el })
  List.insertionSort (fun a b => b.score ≤ a.score) results

/-- Source MatchingEngine.__init__: both embedding backends raise on an
empty corpus (TfidfVectorizer with an empty vocabulary; the SBERT path when
taking the second shape component of an empty embedding array), and
otherwise the flattened documents always contain vocabulary tokens, so
construction succeeds exactly on a non-empty element list. -/
def mkMatchingEngine (elements : List Element) : Except String Unit :=
  if elements.isEmpty then
    Except.error "empty vocabulary; perhaps the documents only contain stop words"
  else Except.ok ()

/-- Engine-level rank: construction followed by rank; a construction failure
propagates as the raised exception. -/
def engine_rank (elements : List Element) (retrieved : List (ℕ × ℚ))
    (selector semantic : String) : Except String (List RankResult) :=
  (mkMatchingEngine elements).map (fun _ => rank elements retrieved selector semantic)

/-- Source HealAPIView._process_heal_request ranking step: any exception
from engine construction or ranking is caught and replaced by an empty
result list. -/
def process_heal_rank (elements : List Element) (retrieved : List (ℕ × ℚ))
    (selector semantic : String) : List RankResult :=
  match engine_rank elements retrieved selector semantic with
  | Except.error _ => []
  | Except.ok rs => rs

/-- C8: rank returns at most top_k results (the retrieval index returns at
most top_k hits), sorted descending by final score, and every result's
final score is 0.7 times its base similarity plus 0.3 times its attribute
score. -/
theorem c8_rank_sorted_blend (elements : List Element) (retrieved : List (ℕ × ℚ))
    (selector semantic : String) (top_k : ℕ) (hk : retrieved.length ≤ top_k) :
    (rank elements retrieved selector semantic).length ≤ top_k
    ∧ List.Sorted (fun a b => b.score ≤ a.score) (rank elements retrieved selector semantic)
    ∧ ∀ r ∈ rank elements retrieved selector semantic,
        r.score = (7 / 10) * r.base + (3 / 10) * r.attr
        ∧ r.attr = attribute_score r.element selector semantic := by
  haveI hTot : IsTotal RankResult (fun a b => b.score ≤ a.score) :=
    ⟨fun a b => le_total b.score a.score⟩
  haveI hTr : IsTrans RankResult (fun a b => b.score ≤ a.score) :=
    ⟨fun _ _ _ h1 h2 => le_trans h2 h1⟩
  refine ⟨?_, ?_, ?_⟩
  · unfold rank
    rw [(List.perm_insertionSort _ _).length_eq, List.length_map]
    exact hk
  · exact List.sorted_insertionSort _ _
  · intro r hr
    unfold rank at hr
    rw [(List.perm_insertionSort _ _).mem_iff, List.mem_map] at hr
    obtain ⟨hit, _, rfl⟩ := hr
    exact ⟨rfl, rfl⟩

/-- C8 witness: a singleton retrieval output within the top-k bound. -/
theorem c8_rank_sorted_blend_witness :
    ([((0 : ℕ), (1 / 2 : ℚ))].length ≤ 5)
    ∧ ((rank [elA] [((0 : ℕ), (1 / 2 : ℚ))] "button.old-submit" "click submit").length ≤ 5
       ∧ List.Sorted (fun a b => b.score ≤ a.score)
           (rank [elA] [((0 : ℕ), (1 / 2 : ℚ))] "button.old-submit" "click submit")
       ∧ ∀ r ∈ rank [elA] [((0 : ℕ), (1 / 2 : ℚ))] "button.old-submit" "click submit",
           r.score = (7 / 10) * r.base + (3 / 10) * r.attr
           ∧ r.attr = attribute_score r.element "button.old-submit" "click submit") :=
  ⟨by decide,
    c8_rank_sorted_blend [elA] [((0 : ℕ), (1 / 2 : ℚ))] "button.old-submit" "click submit" 5
      (by decide)⟩

/-- C1 counterexample: on an empty element list the engine does not return
an empty candidate list; its construction raises, so engine-level rank is an
error, not an empty result. -/
theorem c1_counterexample :
    engine_rank [] [] "button.old-submit" "click submit"
      = Except.error "empty vocabulary; perhaps the documents only contain stop words" := rfl

/-! ## validation_engine.py -/

/-- Source _normalize: strip then lowercase. -/
def pyNormalize (s : String) : String := pyLower ⟨pyStripChars s.data⟩

/-- Source _intent: substring rules classifying the intent text. -/
def intent_from_text (use_of_selector : String) : String :=
  let text := pyNormalize use_of_selector
  if pyContains text "add to cart" = true
      ∨ (pyContains text "add" = true ∧ pyContains text "cart" = true) then "add_to_cart"
  else if pyContains text "checkout" = true then "checkout"
  else if pyContains text "cart" = true then "cart"
  else if pyContains text "pay now" = true ∨ pyContains text "payment" = true then "payment"
  else if pyContains text "view details" = true then "view_details"
  else "generic"

/-- One intent policy: blocked selector patterns and allowed hint patterns,
both regex source strings handed to the regex backend. -/
structure IntentPolicy where
  blocked_selector_patterns : List String := []
  allowed_hint_patterns : List String := []
deriving DecidableEq

/-- Source DEFAULT_INTENT_POLICIES. -/
def DEFAULT_INTENT_POLICIES : List (String × IntentPolicy) :=
  [("add_to_cart",
    { blocked_selector_patterns :=
        ["(/cart|cart-icon|data-testid=[\"\x27]cart-icon|bi-bag)", "^a\\["],
      allowed_hint_patterns := ["button", "add", "cart-plus"] }),
   ("checkout",
    { allowed_hint_patterns := ["checkout", "proceed", "pay", "button", "a\\["] }),
   ("payment",
    { blocked_selector_patterns := ["cart-icon"],
      allowed_hint_patterns := ["pay", "payment", "button"] }),
   ("view_details",
    { allowed_hint_patterns := ["view", "details", "a\\["] }),
   ("generic", {})]

/-- Python policies.get(intent, policies.get("generic", empty)). -/
def policy_lookup (policies : List (String × IntentPolicy)) (intent : String) : IntentPolicy :=
  match policies.find? (fun p => decide (p.1 = intent)) with
  | some p => p.2
  | none =>
    match policies.find? (fun p => decide (p.1 = "generic")) with
    | some p => p.2
    | none => {}

/-- Source _resolve_intent: a normalized explicit intent key that is a known
policy key wins, else classify from the intent text. -/
def resolve_intent (policies : List (String × IntentPolicy))
    (intent_key use_of_selector : String) : String :=
  let explicit := pyNormalize intent_key
  if explicit ≠ "" ∧ (policies.find? (fun p => decide (p.1 = explicit))).isSome = true then
    explicit
  else intent_from_text use_of_selector

/-- Source _rule_validate_candidate, parametric in the regex backend
(reSearch pattern s models re.search(pattern, s) finding a match): the first
blocked pattern that matches and is not covered by the add_to_cart carve-out
rejects; then a non-empty allowed-hint list must have some match. -/
def rule_validate_candidate (reSearch : String → String → Bool)
    (policies : List (String × IntentPolicy)) (intent candidate_selector : String) :
    Bool × String :=
  let sel := pyNormalize candidate_selector
  let policy := policy_lookup policies intent
  match policy.blocked_selector_patterns.find? (fun pattern =>
      reSearch pattern sel
        && ! (decide (intent = "add_to_cart") && decide (pattern = "^a\\[")
              && pyContains sel "add")) with
  | some pattern => (false, "INTENT_POLICY_BLOCKED:" ++ pattern)
  | none =>
    let hints := policy.allowed_hint_patterns
    if hints ≠ [] ∧ hints.any (fun pattern => reSearch pattern sel) = false then
      (false, "INTENT_POLICY_NO_ALLOWED_HINT_MATCH")
    else (true, "VALID")

/-- One prior HealerRequest row as _history_boost reads it. -/
structure HistRow where
  healed_selector : String := ""
  success : Bool := false
deriving DecidableEq

/-- Rows of the recent-history window whose healed selector matches the
candidate after normalization. -/
def history_matches (recent : List HistRow) (candidate_selector : String) : List HistRow :=
  recent.filter (fun item =>
    decide (pyNormalize item.healed_selector = pyNormalize candidate_selector))

/-- Count of matching rows recorded as successes. -/
def history_success_hits (recent : List HistRow) (candidate_selector : String) : ℕ :=
  ((history_matches recent candidate_selector).filter (fun item => item.success)).length

/-- Count of matching rows recorded as failures. -/
def history_failure_hits (recent : List HistRow) (candidate_selector : String) : ℕ :=
  ((history_matches recent candidate_selector).filter (fun item => ! item.success)).length

/-- Source _history_boost over the up-to-50 most-recent rows for the
(page_url, use_of_selector) pair: clamped success/failure boost and the
total hit count. -/
def history_boost (recent : List HistRow) (candidate_selector : String) : ℚ × ℕ :=
  if recent.isEmpty then (0, 0)
  else
    let s := history_success_hits recent candidate_selector
    let f := history_failure_hits recent candidate_selector
    if s + f = 0 then (0, 0)
    else
      (max (-(2 / 10)) (min (2 / 10) ((s : ℚ) * (5 / 100) - (f : ℚ) * (8 / 100))), s + f)

/-- One stored DomSnapshot row as _retrieval_boost reads it. -/
structure DomSnapshotRow where
  id : ℕ := 0
  healed_selector : String := ""
  signature_tokens : List String := []
  success : Bool := false
  validation_status : String := ""
  created_on : String := ""
  dom_fingerprint : String := ""
  source_request_id : ℕ := 0
deriving DecidableEq

/-- One provenance record emitted by _retrieval_boost. -/
structure ProvenanceRecord where
  snapshot_id : ℕ := 0
  similarity : ℚ := 0
  created_on : String := ""
  healed_selector : String := ""
  dom_fingerprint : String := ""
  source_request_id : ℕ := 0
deriving DecidableEq

/-- Python round(q, 4), up to the tie-breaking convention (the source uses
binary floats with half-even ties; ties are irrelevant to the claims). -/
def round4 (q : ℚ) : ℚ := ((round (q * 10000) : ℤ) : ℚ) / 10000

/-- The snapshot query of _retrieval_boost: successful VALID snapshots with
a non-empty healed selector case-insensitively equal to the candidate, most
recent first (the order of the input list), limited to 40. -/
def snapshot_query (snaps : List DomSnapshotRow) (candidate_selector : String) :
    List DomSnapshotRow :=
  (snaps.filter (fun s =>
    s.success && decide (s.validation_status = "VALID")
      && decide (s.healed_selector ≠ "")
      && decide (pyLower s.healed_selector = pyLower candidate_selector))).take 40

/-- Snapshots of the query paired with the Jaccard similarity of their
stored signature tokens against the current signature; token-less snapshots
are skipped. -/
def retrieval_scored (snaps : List DomSnapshotRow) (current_signature_tokens : List String)
    (candidate_selector : String) : List (ℚ × DomSnapshotRow) :=
  (snapshot_query snaps candidate_selector).filterMap (fun snap =>
    if snap.signature_tokens.isEmpty then none
    else some (jaccard_similarity current_signature_tokens.toFinset
      snap.signature_tokens.toFinset, snap))

/-- Source _retrieval_boost: tiered boost from the best similarity among the
top-3 matching snapshots, plus their provenance records. -/
def retrieval_boost (snaps : List DomSnapshotRow) (current_signature_tokens : List String)
    (candidate_selector : String) : ℚ × List ProvenanceRecord :=
  if current_signature_tokens.isEmpty then (0, [])
  else if (snapshot_query snaps candidate_selector).isEmpty then (0, [])
  else
    let scored := retrieval_scored snaps current_signature_tokens candidate_selector
    if scored.isEmpty then (0, [])
    else
      let sorted := List.insertionSort (fun a b => b.1 ≤ a.1) scored
      let top := sorted.take 3
      let best := (top.headD (0, {})).1
      let boost : ℚ :=
        if best ≥ 85 / 100 then 20 / 100
        else if best ≥ 70 / 100 then 14 / 100
        else if best ≥ 55 / 100 then 8 / 100
        else if best ≥ 40 / 100 then 4 / 100
        else 0
      (boost, top.map (fun hit =>
        { snapshot_id := hit.2.id, similarity := round4 hit.1, created_on := hit.2.created_on,
          healed_selector := hit.2.healed_selector, dom_fingerprint := hit.2.dom_fingerprint,
          source_request_id := hit.2.source_request_id }))

/-- One ranking candidate as select_validated_candidate reads it: its
suggested selector and its final ranking score. -/
structure VCandidate where
  selector : String := ""
  score : ℚ := 0
deriving DecidableEq

/-- Read-only context of one select_validated_candidate call: the regex
backend, the loaded intent policies, the advisory scorer and its enable
flag, the recent history rows for the (page_url, use_of_selector) pair in
recency order (at most 50), and the DomSnapshot rows for the page/intent
context in recency order. -/
structure ValidationCtx where
  reSearch : String → String → Bool := fun _ _ => false
  policies : List (String × IntentPolicy) := DEFAULT_INTENT_POLICIES
  llm_enabled : Bool := false
  llm_score_fn : VCandidate → ℚ := fun _ => 0
  recent : List HistRow := []
  snaps : List DomSnapshotRow := []

/-- Source _llm_score: 0 when the advisory scorer is disabled, else the
scorer's clamped result (network, parse and timeout failures included as 0
in the abstract scorer). -/
def llm_score_of (ctx : ValidationCtx) (c : VCandidate) : ℚ :=
  if ctx.llm_enabled then ctx.llm_score_fn c else 0

/-- The blended score the candidate loop assigns to one policy-passing
candidate (source lines computing history_norm, retrieval_norm and
final_score). -/
def candidate_final_score (ctx : ValidationCtx) (current_tokens : List String)
    (c : VCandidate) : ℚ :=
  let base := c.score
  let history := (history_boost ctx.recent c.selector).1
  let retrieval := (retrieval_boost ctx.snaps current_tokens c.selector).1
  let llm := llm_score_of ctx c
  let history_norm := max 0 (history + 2 / 10) / (4 / 10)
  let retrieval_norm := max 0 (min 1 (retrieval / (20 / 100)))
  (70 / 100) * base + (12 / 100) * history_norm + (10 / 100) * llm
    + (8 / 100) * retrieval_norm

/-- Accumulator of the per-candidate loop in select_validated_candidate. -/
structure LoopState where
  scored : List (ℚ × VCandidate) := []
  invalid_reasons : List String := []
  total_history_hits : ℕ := 0
  total_retrieval_hits : ℕ := 0
  retrieval_by_selector : List (String × List ProvenanceRecord) := []

/-- One iteration of the candidate loop: an invalid candidate only records
its rejection reason; a valid one accumulates its blended score, its history
and retrieval hit counts, and (when non-empty) its provenance records under
its normalized selector (insertion at the front models dict overwrite, the
lookup taking the most recent entry). -/
def loop_step (ctx : ValidationCtx) (current_tokens : List String) (intent : String)
    (st : LoopState) (candidate : VCandidate) : LoopState :=
  let selector := candidate.selector
  let v := rule_validate_candidate ctx.reSearch ctx.policies intent selector
  if v.1 = false then
    { st with invalid_reasons := st.invalid_reasons ++ [selector ++ ": " ++ v.2] }
  else
    let hb := history_boost ctx.recent selector
    let rb := retrieval_boost ctx.snaps current_tokens selector
    { scored := st.scored ++ [(candidate_final_score ctx current_tokens candidate, candidate)],
      invalid_reasons := st.invalid_reasons,
      total_history_hits := st.total_history_hits + hb.2,
      total_retrieval_hits := st.total_retrieval_hits + rb.2.length,
      retrieval_by_selector :=
        if rb.2.isEmpty then st.retrieval_by_selector
        else (pyNormalize selector, rb.2) :: st.retrieval_by_selector }

/-- The candidate loop of select_validated_candidate. -/
def run_candidate_loop (ctx : ValidationCtx) (current_tokens : List String) (intent : String)
    (candidates : List VCandidate) : LoopState :=
  candidates.foldl (loop_step ctx current_tokens intent) {}

/-- Python retrieval_by_selector.get(key, empty). -/
def dict_get (m : List (String × List ProvenanceRecord)) (key : String) :
    List ProvenanceRecord :=
  ((m.find? (fun p => decide (p.1 = key))).map Prod.snd).getD []

/-- Whether a candidate passes the intent-policy filter. -/
def passes_policy (ctx : ValidationCtx) (intent : String) (c : VCandidate) : Bool :=
  (rule_validate_candidate ctx.reSearch ctx.policies intent c.selector).1

/-- The candidates surviving the intent-policy filter, in order. -/
def passing_candidates (ctx : ValidationCtx) (intent : String)
    (candidates : List VCandidate) : List VCandidate :=
  candidates.filter (passes_policy ctx intent)

/-- The arbitration decision returned to the caller. -/
structure ValidationDecision where
  chosen : Option String := none
  validation_status : String := ""
  validation_reason : String := ""
  llm_used : Bool := false
  history_assisted : Bool := false
  history_hits : ℕ := 0
  retrieval_assisted : Bool := false
  retrieval_hits : ℕ := 0
  retrieved_versions : List ProvenanceRecord := []
deriving DecidableEq

/-- Reason of the empty-candidate branch, specialized by change level. -/
def no_candidates_reason (ui_change_level : String) : String :=
  if ui_change_level = "ELEMENT_REMOVED" then
    "No candidates available. Historical comparison indicates target element was removed from UI."
  else if ui_change_level = "MAJOR_CHANGE" then
    "No candidates available. Historical comparison indicates major UI change."
  else "No candidates available"

/-- Reason of the nothing-passed branch: the change-level overrides win,
else the base reason with up to three rejection entries appended. -/
def no_pass_reason (invalid_reasons : List String) (ui_change_level : String) : String :=
  if ui_change_level = "ELEMENT_REMOVED" then
    "No safe match. Historical comparison indicates target element was removed from UI."
  else if ui_change_level = "MAJOR_CHANGE" then
    "No safe match. Historical comparison indicates major UI change; suggestions blocked for safety."
  else if invalid_reasons.isEmpty then "No candidate passed validation rules"
  else
    "No candidate passed validation rules. Rejections: "
      ++ String.intercalate " | " (invalid_reasons.take 3)

/-- Reason of the below-threshold branch.  The source interpolates the score
formatted to three decimals; the numeric rendering is not modelled. -/
def low_score_reason (best_score : ℚ) : String := "Best candidate score too low"

/-- Source select_validated_candidate: the four return branches around the
candidate loop, the stable descending sort of the scored candidates, and the
0.28 safety threshold. -/
def select_validated_candidate (ctx : ValidationCtx) (candidates : List VCandidate)
    (failed_selector use_of_selector page_url intent_key : String)
    (current_signature_tokens : List String) (ui_change_level : String) :
    ValidationDecision :=
  if candidates.isEmpty then
    { chosen := none, validation_status := "NO_SAFE_MATCH",
      validation_reason := no_candidates_reason ui_change_level,
      llm_used := ctx.llm_enabled, history_assisted := false, history_hits := 0,
      retrieval_assisted := false, retrieval_hits := 0, retrieved_versions := [] }
  else
    let intent := resolve_intent ctx.policies intent_key use_of_selector
    let st := run_candidate_loop ctx current_signature_tokens intent candidates
    if st.scored.isEmpty then
      { chosen := none, validation_status := "NO_SAFE_MATCH",
        validation_reason := no_pass_reason st.invalid_reasons ui_change_level,
        llm_used := ctx.llm_enabled,
        history_assisted := decide (0 < st.total_history_hits),
        history_hits := st.total_history_hits,
        retrieval_assisted := decide (0 < st.total_retrieval_hits),
        retrieval_hits := st.total_retrieval_hits, retrieved_versions := [] }
    else
      let sorted := List.insertionSort (fun a b => b.1 ≤ a.1) st.scored
      let best := sorted.headD (0, {})
      if best.1 < 28 / 100 then
        { chosen := none, validation_status := "NO_SAFE_MATCH",
          validation_reason := low_score_reason best.1,
          llm_used := ctx.llm_enabled,
          history_assisted := decide (0 < st.total_history_hits),
          history_hits := st.total_history_hits,
          retrieval_assisted := decide (0 < st.total_retrieval_hits),
          retrieval_hits := st.total_retrieval_hits, retrieved_versions := [] }
      else
        { chosen := some best.2.selector, validation_status := "VALID",
          validation_reason := "Selector passed rule/history/LLM validation",
          llm_used := ctx.llm_enabled,
          history_assisted := decide (0 < st.total_history_hits),
          history_hits := st.total_history_hits,
          retrieval_assisted := decide (0 < st.total_retrieval_hits),
          retrieval_hits := st.total_retrieval_hits,
          retrieved_versions :=
            dict_get st.retrieval_by_selector (pyNormalize best.2.selector) }

/-! ## Bridge lemmas relating the candidate loop to its accumulated data -/

lemma isWhitespace_pyLowerChar (c : Char) :
    (pyLowerChar c).isWhitespace = c.isWhitespace := by
  unfold pyLowerChar
  split <;> rfl

lemma dropWhile_ws_map_lower (x : List Char) :
    List.dropWhile Char.isWhitespace (x.map pyLowerChar)
      = (List.dropWhile Char.isWhitespace x).map pyLowerChar := by
  rw [List.dropWhile_map]
  have hf : (Char.isWhitespace ∘ pyLowerChar) = Char.isWhitespace := by
    funext c
    simp [Function.comp, isWhitespace_pyLowerChar]
  rw [hf]

lemma pyStripChars_map_lower (l : List Char) :
    pyStripChars (l.map pyLowerChar) = (pyStripChars l).map pyLowerChar := by
  unfold pyStripChars
  rw [dropWhile_ws_map_lower, ← List.map_reverse, dropWhile_ws_map_lower, List.map_reverse]

lemma pyNormalize_eq_of_pyLower_eq (a b : String) (h : pyLower a = pyLower b) :
    pyNormalize a = pyNormalize b := by
  have hd : a.data.map pyLowerChar = b.data.map pyLowerChar := congrArg String.data h
  unfold pyNormalize pyLower
  have : pyStripChars (a.data.map pyLowerChar) = pyStripChars (b.data.map pyLowerChar) := by
    rw [hd]
  rw [pyStripChars_map_lower, pyStripChars_map_lower] at this
  exact congrArg String.mk this

lemma retrieval_provenance_healed (snaps : List DomSnapshotRow)
    (current_signature_tokens : List String) (candidate_selector : String) :
    ∀ r ∈ (retrieval_boost snaps current_signature_tokens candidate_selector).2,
      pyLower r.healed_selector = pyLower candidate_selector := by
  intro r hr
  unfold retrieval_boost at hr
  by_cases h1 : current_signature_tokens.isEmpty
  · rw [if_pos h1] at hr; cases hr
  · rw [if_neg h1] at hr
    by_cases h2 : (snapshot_query snaps candidate_selector).isEmpty
    · rw [if_pos h2] at hr; cases hr
    · rw [if_neg h2] at hr
      simp only [] at hr
      by_cases h3 : (retrieval_scored snaps current_signature_tokens candidate_selector).isEmpty
      · rw [if_pos h3] at hr; cases hr
      · rw [if_neg h3] at hr
        simp only [List.mem_map] at hr
        obtain ⟨hit, hhit, rfl⟩ := hr
        have hsorted : hit ∈ List.insertionSort (fun a b => b.1 ≤ a.1)
            (retrieval_scored snaps current_signature_tokens candidate_selector) :=
          List.mem_of_mem_take hhit
        have hscored : hit ∈ retrieval_scored snaps current_signature_tokens
            candidate_selector := (List.perm_insertionSort _ _).mem_iff.mp hsorted
        unfold retrieval_scored at hscored
        rw [List.mem_filterMap] at hscored
        obtain ⟨snap, hsnap, hsome⟩ := hscored
        have hsnapeq : hit.2 = snap := by
          by_cases he : snap.signature_tokens.isEmpty
          · rw [if_pos he] at hsome; cases hsome
          · rw [if_neg he] at hsome
            cases hsome
            rfl
        unfold snapshot_query at hsnap
        have hmem := List.mem_of_mem_take hsnap
        rw [List.mem_filter] at hmem
        have hcond := hmem.2
        simp only [Bool.and_eq_true, decide_eq_true_eq] at hcond
        simp only [hsnapeq]
        exact hcond.2

lemma loop_step_invalid (ctx : ValidationCtx) (current_tokens : List String) (intent : String)
    (st : LoopState) (c : VCandidate) (h : passes_policy ctx intent c = false) :
    loop_step ctx current_tokens intent st c
      = { st with invalid_reasons := st.invalid_reasons
            ++ [c.selector ++ ": "
                ++ (rule_validate_candidate ctx.reSearch ctx.policies intent c.selector).2] } := by
  unfold loop_step
  unfold passes_policy at h
  rw [if_pos h]

lemma loop_step_valid (ctx : ValidationCtx) (current_tokens : List String) (intent : String)
    (st : LoopState) (c : VCandidate) (h : passes_policy ctx intent c = true) :
    loop_step ctx current_tokens intent st c
      = { scored := st.scored ++ [(candidate_final_score ctx current_tokens c, c)],
          invalid_reasons := st.invalid_reasons,
          total_history_hits := st.total_history_hits + (history_boost ctx.recent c.selector).2,
          total_retrieval_hits := st.total_retrieval_hits
            + (retrieval_boost ctx.snaps current_tokens c.selector).2.length,
          retrieval_by_selector :=
            if (retrieval_boost ctx.snaps current_tokens c.selector).2.isEmpty then
              st.retrieval_by_selector
            else (pyNormalize c.selector, (retrieval_boost ctx.snaps current_tokens c.selector).2)
                :: st.retrieval_by_selector } := by
  unfold loop_step
  unfold passes_policy at h
  rw [if_neg (by rw [h]; exact fun hc => Bool.noConfusion hc)]

lemma passing_cons_true (ctx : ValidationCtx) (intent : String) (c : VCandidate)
    (cs : List VCandidate) (h : passes_policy ctx intent c = true) :
    passing_candidates ctx intent (c :: cs) = c :: passing_candidates ctx intent cs := by
  unfold passing_candidates
  rw [List.filter_cons, if_pos (by rw [h])]

lemma passing_cons_false (ctx : ValidationCtx) (intent : String) (c : VCandidate)
    (cs : List VCandidate) (h : passes_policy ctx intent c = false) :
    passing_candidates ctx intent (c :: cs) = passing_candidates ctx intent cs := by
  unfold passing_candidates
  rw [List.filter_cons, if_neg (by rw [h]; exact fun hc => Bool.noConfusion hc)]

/-- Every entry of the retrieval dictionary maps its key to provenance
records whose healed selector normalizes to that key. -/
def dict_inv (m : List (String × List ProvenanceRecord)) : Prop :=
  ∀ p ∈ m, ∀ r ∈ p.2, pyNormalize r.healed_selector = p.1

lemma loop_step_dict_inv (ctx : ValidationCtx) (current_tokens : List String) (intent : String)
    (st : LoopState) (c : VCandidate) (h : dict_inv st.retrieval_by_selector) :
    dict_inv (loop_step ctx current_tokens intent st c).retrieval_by_selector := by
  cases hv : passes_policy ctx intent c with
  | false =>
    rw [loop_step_invalid ctx current_tokens intent st c hv]
    exact h
  | true =>
    rw [loop_step_valid ctx current_tokens intent st c hv]
    simp only []
    by_cases hrb : (retrieval_boost ctx.snaps current_tokens c.selector).2.isEmpty
    · rw [if_pos hrb]
      exact h
    · rw [if_neg hrb]
      intro p hp r hrmem
      rcases List.mem_cons.mp hp with hhead | htail
      · subst hhead
        exact pyNormalize_eq_of_pyLower_eq _ _
          (retrieval_provenance_healed ctx.snaps current_tokens c.selector r hrmem)
      · exact h p htail r hrmem

lemma foldl_loop_dict_inv (ctx : ValidationCtx) (current_tokens : List String) (intent : String)
    (candidates : List VCandidate) (st : LoopState) (h : dict_inv st.retrieval_by_selector) :
    dict_inv ((candidates.foldl (loop_step ctx current_tokens intent) st).retrieval_by_selector) := by
  induction candidates generalizing st with
  | nil => exact h
  | cons c cs ih =>
    rw [List.foldl_cons]
    exact ih _ (loop_step_dict_inv ctx current_tokens intent st c h)

lemma run_loop_dict_inv (ctx : ValidationCtx) (current_tokens : List String) (intent : String)
    (candidates : List VCandidate) :
    dict_inv ((run_candidate_loop ctx current_tokens intent candidates).retrieval_by_selector) :=
  foldl_loop_dict_inv ctx current_tokens intent candidates {} (fun p hp => by cases hp)

lemma dict_get_sound (m : List (String × List ProvenanceRecord)) (key : String)
    (hinv : dict_inv m) :
    ∀ r ∈ dict_get m key, pyNormalize r.healed_selector = key := by
  intro r hr
  unfold dict_get at hr
  cases hfind : m.find? (fun q => decide (q.1 = key)) with
  | none => rw [hfind] at hr; cases hr
  | some entry =>
    rw [hfind] at hr
    have hr' : r ∈ entry.2 := hr
    have hpred := List.find?_some hfind
    have hkey : entry.1 = key := of_decide_eq_true hpred
    have hp : entry ∈ m := List.mem_of_find?_eq_some hfind
    rw [← hkey]
    exact hinv entry hp r hr'

lemma foldl_loop_hh (ctx : ValidationCtx) (current_tokens : List String) (intent : String)
    (candidates : List VCandidate) (st : LoopState) :
    (candidates.foldl (loop_step ctx current_tokens intent) st).total_history_hits
      = st.total_history_hits
        + ((passing_candidates ctx intent candidates).map
            (fun c => (history_boost ctx.recent c.selector).2)).sum := by
  induction candidates generalizing st with
  | nil => rfl
  | cons c cs ih =>
    rw [List.foldl_cons]
    cases hv : passes_policy ctx intent c with
    | false =>
      rw [loop_step_invalid ctx current_tokens intent st c hv, ih,
        passing_cons_false ctx intent c cs hv]
    | true =>
      rw [loop_step_valid ctx current_tokens intent st c hv, ih,
        passing_cons_true ctx intent c cs hv, List.map_cons, List.sum_cons]
      dsimp only
      omega

lemma foldl_loop_rh (ctx : ValidationCtx) (current_tokens : List String) (intent : String)
    (candidates : List VCandidate) (st : LoopState) :
    (candidates.foldl (loop_step ctx current_tokens intent) st).total_retrieval_hits
      = st.total_retrieval_hits
        + ((passing_candidates ctx intent candidates).map
            (fun c => (retrieval_boost ctx.snaps current_tokens c.selector).2.length)).sum := by
  induction candidates generalizing st with
  | nil => rfl
  | cons c cs ih =>
    rw [List.foldl_cons]
    cases hv : passes_policy ctx intent c with
    | false =>
      rw [loop_step_invalid ctx current_tokens intent st c hv, ih,
        passing_cons_false ctx intent c cs hv]
    | true =>
      rw [loop_step_valid ctx current_tokens intent st c hv, ih,
        passing_cons_true ctx intent c cs hv, List.map_cons, List.sum_cons]
      dsimp only
      omega

lemma foldl_loop_scored (ctx : ValidationCtx) (current_tokens : List String) (intent : String)
    (candidates : List VCandidate) (st : LoopState) :
    (candidates.foldl (loop_step ctx current_tokens intent) st).scored
      = st.scored
        ++ (passing_candidates ctx intent candidates).map
            (fun c => (candidate_final_score ctx current_tokens c, c)) := by
  induction candidates generalizing st with
  | nil => simp [passing_candidates]
  | cons c cs ih =>
    rw [List.foldl_cons]
    cases hv : passes_policy ctx intent c with
    | false =>
      rw [loop_step_invalid ctx current_tokens intent st c hv, ih,
        passing_cons_false ctx intent c cs hv]
    | true =>
      rw [loop_step_valid ctx current_tokens intent st c hv, ih,
        passing_cons_true ctx intent c cs hv, List.map_cons]
      dsimp only
      simp [List.append_assoc]

lemma run_loop_scored (ctx : ValidationCtx) (current_tokens : List String) (intent : String)
    (candidates : List VCandidate) :
    (run_candidate_loop ctx current_tokens intent candidates).scored
      = (passing_candidates ctx intent candidates).map
          (fun c => (candidate_final_score ctx current_tokens c, c)) := by
  unfold run_candidate_loop
  rw [foldl_loop_scored]
  rfl

lemma sorted_headD_max (l : List (ℚ × VCandidate)) :
    ∀ p ∈ l, p.1 ≤ ((List.insertionSort (fun a b => b.1 ≤ a.1) l).headD (0, {})).1 := by
  haveI : IsTotal (ℚ × VCandidate) (fun a b => b.1 ≤ a.1) := ⟨fun a b => le_total b.1 a.1⟩
  haveI : IsTrans (ℚ × VCandidate) (fun a b => b.1 ≤ a.1) :=
    ⟨fun _ _ _ h1 h2 => le_trans h2 h1⟩
  intro p hp
  have hmem : p ∈ List.insertionSort (fun a b => b.1 ≤ a.1) l :=
    (List.perm_insertionSort _ _).mem_iff.mpr hp
  have hsorted := List.sorted_insertionSort (fun a b => b.1 ≤ a.1) l
  cases hs : List.insertionSort (fun a b => b.1 ≤ a.1) l with
  | nil => rw [hs] at hmem; cases hmem
  | cons h t =>
    rw [hs] at hmem hsorted
    simp only [List.headD_cons]
    rcases List.mem_cons.mp hmem with rfl | htail
    · exact le_refl _
    · exact (List.sorted_cons.mp hsorted).1 p htail

lemma ne_nil_isEmpty_ne_true (l : List VCandidate) (h : l ≠ []) : ¬ (l.isEmpty = true) := by
  cases l with
  | nil => exact absurd rfl h
  | cons x xs => intro hx; exact Bool.noConfusion hx

lemma valid_ne_no_safe_match : ¬ (("VALID" : String) = "NO_SAFE_MATCH") := by decide

lemma history_boost_bounds (recent : List HistRow) (sel : String) :
    -(2 / 10) ≤ (history_boost recent sel).1 ∧ (history_boost recent sel).1 ≤ 2 / 10 := by
  unfold history_boost
  by_cases h1 : recent.isEmpty = true
  · rw [if_pos h1]; norm_num
  · rw [if_neg h1]
    simp only []
    by_cases h2 : history_success_hits recent sel + history_failure_hits recent sel = 0
    · rw [if_pos h2]; norm_num
    · rw [if_neg h2]
      exact ⟨le_max_left _ _, max_le (by norm_num) (min_le_left _ _)⟩

/-- C4: the blended score of every policy-passing candidate is
0.70 rank + 0.12 normalize(historyBoost) + 0.10 advisory
+ 0.08 normalize(retrievalBoost) with the normalizations of the claim, and
the history boost is clamp(success 0.05 - failure 0.08, -0.2, 0.2) over the
recent-history window (0 with zero hits). -/
theorem c4_blended_score_formula (ctx : ValidationCtx) (current_tokens : List String)
    (intent : String) (c : VCandidate)
    (hrec : ctx.recent.length ≤ 50)
    (hpass : passes_policy ctx intent c = true) :
    candidate_final_score ctx current_tokens c
      = (70 / 100) * c.score
        + (12 / 100) * max 0 (min 1 (((history_boost ctx.recent c.selector).1 + 2 / 10) / (4 / 10)))
        + (10 / 100) * llm_score_of ctx c
        + (8 / 100) * max 0 (min 1 ((retrieval_boost ctx.snaps current_tokens c.selector).1 / (20 / 100)))
    ∧ (history_boost ctx.recent c.selector).1
        = max (-(2 / 10)) (min (2 / 10)
            ((history_success_hits ctx.recent c.selector : ℚ) * (5 / 100)
              - (history_failure_hits ctx.recent c.selector : ℚ) * (8 / 100)))
    ∧ (history_success_hits ctx.recent c.selector + history_failure_hits ctx.recent c.selector = 0
        → (history_boost ctx.recent c.selector).1 = 0) := by
  obtain ⟨hlo, hhi⟩ := history_boost_bounds ctx.recent c.selector
  refine ⟨?_, ?_, ?_⟩
  · unfold candidate_final_score
    simp only []
    have key : max 0 ((history_boost ctx.recent c.selector).1 + 2 / 10) / (4 / 10)
        = max 0 (min 1 (((history_boost ctx.recent c.selector).1 + 2 / 10) / (4 / 10))) := by
      have h1 : (0 : ℚ) ≤ (history_boost ctx.recent c.selector).1 + 2 / 10 := by linarith
      have h2 : ((history_boost ctx.recent c.selector).1 + 2 / 10) / (4 / 10) ≤ 1 := by
        rw [div_le_one (by norm_num)]
        linarith
      have h3 : (0 : ℚ) ≤ ((history_boost ctx.recent c.selector).1 + 2 / 10) / (4 / 10) := by
        apply div_nonneg h1
        norm_num
      rw [max_eq_right h1, min_eq_right h2, max_eq_right h3]
    rw [key]
  · unfold history_boost
    by_cases h1 : ctx.recent.isEmpty = true
    · rw [if_pos h1]
      have hrecnil : ctx.recent = [] := by
        cases hre : ctx.recent with
        | nil => rfl
        | cons x xs => rw [hre] at h1; cases h1
      rw [hrecnil]
      unfold history_success_hits history_failure_hits history_matches
      norm_num
    · rw [if_neg h1]
      simp only []
      by_cases h2 : history_success_hits ctx.recent c.selector
          + history_failure_hits ctx.recent c.selector = 0
      · rw [if_pos h2]
        obtain ⟨hs, hf⟩ := Nat.add_eq_zero.mp h2
        rw [hs, hf]
        norm_num
      · rw [if_neg h2]
  · intro hzero
    unfold history_boost
    by_cases h1 : ctx.recent.isEmpty = true
    · rw [if_pos h1]
    · rw [if_neg h1]
      simp only []
      rw [if_pos hzero]

/-- C4 witness: a generic-intent candidate passing the default policies with
no history rows. -/
theorem c4_blended_score_formula_witness :
    (({} : ValidationCtx).recent.length ≤ 50
      ∧ passes_policy {} "generic" { selector := "button.submit", score := 1 / 2 } = true)
    ∧ (candidate_final_score {} [] { selector := "button.submit", score := 1 / 2 }
        = (70 / 100) * ({ selector := "button.submit", score := 1 / 2 } : VCandidate).score
          + (12 / 100) * max 0 (min 1 (((history_boost ({} : ValidationCtx).recent
              ({ selector := "button.submit", score := 1 / 2 } : VCandidate).selector).1 + 2 / 10)
                / (4 / 10)))
          + (10 / 100) * llm_score_of {} { selector := "button.submit", score := 1 / 2 }
          + (8 / 100) * max 0 (min 1 ((retrieval_boost ({} : ValidationCtx).snaps []
              ({ selector := "button.submit", score := 1 / 2 } : VCandidate).selector).1
                / (20 / 100)))
       ∧ (history_boost ({} : ValidationCtx).recent
            ({ selector := "button.submit", score := 1 / 2 } : VCandidate).selector).1
          = max (-(2 / 10)) (min (2 / 10)
              ((history_success_hits ({} : ValidationCtx).recent
                  ({ selector := "button.submit", score := 1 / 2 } : VCandidate).selector : ℚ)
                    * (5 / 100)
                - (history_failure_hits ({} : ValidationCtx).recent
                    ({ selector := "button.submit", score := 1 / 2 } : VCandidate).selector : ℚ)
                      * (8 / 100)))
       ∧ (history_success_hits ({} : ValidationCtx).recent
            ({ selector := "button.submit", score := 1 / 2 } : VCandidate).selector
          + history_failure_hits ({} : ValidationCtx).recent
              ({ selector := "button.submit", score := 1 / 2 } : VCandidate).selector = 0
          → (history_boost ({} : ValidationCtx).recent
              ({ selector := "button.submit", score := 1 / 2 } : VCandidate).selector).1 = 0)) :=
  ⟨⟨by decide, by decide⟩,
    c4_blended_score_formula {} [] "generic" { selector := "button.submit", score := 1 / 2 }
      (by decide) (by decide)⟩

/-- C5: with at least one policy-passing candidate, the decision is
NO_SAFE_MATCH exactly when the best blended score is strictly below 0.28;
in particular a best score of exactly 0.27 is rejected and exactly 0.28 is
accepted as VALID.  The head of the descending sort is the maximum of the
blended scores. -/
theorem c5_safety_threshold (ctx : ValidationCtx) (candidates : List VCandidate)
    (failed_selector use_of_selector page_url intent_key : String)
    (current_signature_tokens : List String) (ui_change_level : String)
    (hpass : passing_candidates ctx (resolve_intent ctx.policies intent_key use_of_selector)
        candidates ≠ []) :
    let intent := resolve_intent ctx.policies intent_key use_of_selector
    let st := run_candidate_loop ctx current_signature_tokens intent candidates
    let best := ((List.insertionSort (fun a b => b.1 ≤ a.1) st.scored).headD (0, {})).1
    let d := select_validated_candidate ctx candidates failed_selector use_of_selector
        page_url intent_key current_signature_tokens ui_change_level
    (∀ p ∈ st.scored, p.1 ≤ best)
    ∧ (d.validation_status = "NO_SAFE_MATCH" ↔ best < 28 / 100)
    ∧ (best = 27 / 100 → d.validation_status = "NO_SAFE_MATCH")
    ∧ (best = 28 / 100 → d.validation_status = "VALID") := by
  intro intent st best d
  have hc : candidates ≠ [] := by
    intro h
    apply hpass
    rw [h]
    rfl
  have h1 : ¬ (candidates.isEmpty = true) := ne_nil_isEmpty_ne_true candidates hc
  have hscored : st.scored
      = (passing_candidates ctx intent candidates).map
          (fun c => (candidate_final_score ctx current_signature_tokens c, c)) :=
    run_loop_scored ctx current_signature_tokens intent candidates
  have h2 : ¬ (st.scored.isEmpty = true) := by
    intro hx
    apply hpass
    have : st.scored = [] := by
      cases hsc : st.scored with
      | nil => rfl
      | cons y ys => rw [hsc] at hx; cases hx
    rw [hscored] at this
    exact List.map_eq_nil_iff.mp this
  have hd : d = (if best < 28 / 100 then
      { chosen := none, validation_status := "NO_SAFE_MATCH",
        validation_reason := low_score_reason best,
        llm_used := ctx.llm_enabled,
        history_assisted := decide (0 < st.total_history_hits),
        history_hits := st.total_history_hits,
        retrieval_assisted := decide (0 < st.total_retrieval_hits),
        retrieval_hits := st.total_retrieval_hits, retrieved_versions := [] }
    else
      { chosen := some ((List.insertionSort (fun a b => b.1 ≤ a.1) st.scored).headD (0, {})).2.selector,
        validation_status := "VALID",
        validation_reason := "Selector passed rule/history/LLM validation",
        llm_used := ctx.llm_enabled,
        history_assisted := decide (0 < st.total_history_hits),
        history_hits := st.total_history_hits,
        retrieval_assisted := decide (0 < st.total_retrieval_hits),
        retrieval_hits := st.total_retrieval_hits,
        retrieved_versions := dict_get st.retrieval_by_selector
          (pyNormalize ((List.insertionSort (fun a b => b.1 ≤ a.1) st.scored).headD (0, {})).2.selector) }) := by
    show select_validated_candidate ctx candidates failed_selector use_of_selector
        page_url intent_key current_signature_tokens ui_change_level = _
    unfold select_validated_candidate
    rw [if_neg h1]
    simp only []
    rw [if_neg h2]
  refine ⟨sorted_headD_max st.scored, ?_, ?_, ?_⟩
  · by_cases hb : best < 28 / 100
    · rw [hd, if_pos hb]
      exact ⟨fun _ => hb, fun _ => rfl⟩
    · rw [hd, if_neg hb]
      constructor
      · intro hv
        exact absurd hv valid_ne_no_safe_match
      · intro hlt
        exact absurd hlt hb
  · intro h27
    have hb : best < 28 / 100 := by rw [h27]; norm_num
    rw [hd, if_pos hb]
  · intro h28
    have hb : ¬ (best < 28 / 100) := by rw [h28]; exact lt_irrefl _
    rw [hd, if_neg hb]

/-- C5 witness: one generic candidate with rank score 0.4 passes the default
policies. -/
theorem c5_safety_threshold_witness :
    (passing_candidates {} (resolve_intent ({} : ValidationCtx).policies "" "press the button")
        [{ selector := "button.submit", score := 4 / 10 }] ≠ [])
    ∧ (let intent := resolve_intent ({} : ValidationCtx).policies "" "press the button"
       let st := run_candidate_loop {} [] intent [{ selector := "button.submit", score := 4 / 10 }]
       let best := ((List.insertionSort (fun a b => b.1 ≤ a.1) st.scored).headD (0, {})).1
       let d := select_validated_candidate {} [{ selector := "button.submit", score := 4 / 10 }]
           "button.old" "press the button" "" "" [] "UNKNOWN"
       (∀ p ∈ st.scored, p.1 ≤ best)
       ∧ (d.validation_status = "NO_SAFE_MATCH" ↔ best < 28 / 100)
       ∧ (best = 27 / 100 → d.validation_status = "NO_SAFE_MATCH")
       ∧ (best = 28 / 100 → d.validation_status = "VALID")) :=
  ⟨by decide,
    c5_safety_threshold {} [{ selector := "button.submit", score := 4 / 10 }]
      "button.old" "press the button" "" "" [] "UNKNOWN" (by decide)⟩

/-- C6: the decision is VALID exactly when a selector was chosen and
NO_SAFE_MATCH exactly when none was, for every input. -/
theorem c6_status_chosen_consistency (ctx : ValidationCtx) (candidates : List VCandidate)
    (failed_selector use_of_selector page_url intent_key : String)
    (current_signature_tokens : List String) (ui_change_level : String) :
    (select_validated_candidate ctx candidates failed_selector use_of_selector page_url
        intent_key current_signature_tokens ui_change_level).chosen.isSome
      = ((select_validated_candidate ctx candidates failed_selector use_of_selector page_url
          intent_key current_signature_tokens ui_change_level).validation_status == "VALID")
    ∧ (select_validated_candidate ctx candidates failed_selector use_of_selector page_url
        intent_key current_signature_tokens ui_change_level).chosen.isNone
      = ((select_validated_candidate ctx candidates failed_selector use_of_selector page_url
          intent_key current_signature_tokens ui_change_level).validation_status
            == "NO_SAFE_MATCH") := by
  unfold select_validated_candidate
  by_cases h1 : candidates.isEmpty = true
  · simp only [if_pos h1]
    exact ⟨rfl, rfl⟩
  · simp only [if_neg h1]
    by_cases h2 : (run_candidate_loop ctx current_signature_tokens
        (resolve_intent ctx.policies intent_key use_of_selector) candidates).scored.isEmpty = true
    · simp only [if_pos h2]
      exact ⟨rfl, rfl⟩
    · simp only [if_neg h2]
      by_cases h3 : (((List.insertionSort (fun a b => b.1 ≤ a.1)
          (run_candidate_loop ctx current_signature_tokens
            (resolve_intent ctx.policies intent_key use_of_selector) candidates).scored).headD
              (0, {})).1) < 28 / 100
      · simp only [if_pos h3]
        exact ⟨rfl, rfl⟩
      · simp only [if_neg h3]
        exact ⟨rfl, rfl⟩

/-- C10: for a non-empty candidate list the reported history_hits sums the
history hit counts over all policy-passing candidates, retrieval_hits sums
their provenance-record counts, every returned provenance record's healed
selector normalizes to the chosen selector, and a NO_SAFE_MATCH decision
returns no provenance records. -/
theorem c10_decision_accounting (ctx : ValidationCtx) (candidates : List VCandidate)
    (failed_selector use_of_selector page_url intent_key : String)
    (current_signature_tokens : List String) (ui_change_level : String)
    (hne : candidates ≠ []) :
    let intent := resolve_intent ctx.policies intent_key use_of_selector
    let d := select_validated_candidate ctx candidates failed_selector use_of_selector
        page_url intent_key current_signature_tokens ui_change_level
    d.history_hits = ((passing_candidates ctx intent candidates).map
        (fun c => (history_boost ctx.recent c.selector).2)).sum
    ∧ d.retrieval_hits = ((passing_candidates ctx intent candidates).map
        (fun c => (retrieval_boost ctx.snaps current_signature_tokens c.selector).2.length)).sum
    ∧ (∀ r ∈ d.retrieved_versions,
        pyNormalize r.healed_selector = pyNormalize (d.chosen.getD ""))
    ∧ (d.validation_status = "NO_SAFE_MATCH" → d.retrieved_versions = []) := by
  intro intent d
  have h1 : ¬ (candidates.isEmpty = true) := ne_nil_isEmpty_ne_true candidates hne
  have hhh : (run_candidate_loop ctx current_signature_tokens intent candidates).total_history_hits
      = ((passing_candidates ctx intent candidates).map
          (fun c => (history_boost ctx.recent c.selector).2)).sum := by
    unfold run_candidate_loop
    rw [foldl_loop_hh]
    simp
  have hrr : (run_candidate_loop ctx current_signature_tokens intent candidates).total_retrieval_hits
      = ((passing_candidates ctx intent candidates).map
          (fun c =>
            (retrieval_boost ctx.snaps current_signature_tokens c.selector).2.length)).sum := by
    unfold run_candidate_loop
    rw [foldl_loop_rh]
    simp
  by_cases h2 : (run_candidate_loop ctx current_signature_tokens intent candidates).scored.isEmpty = true
  · have hd : d =
        { chosen := none, validation_status := "NO_SAFE_MATCH",
          validation_reason := no_pass_reason
            (run_candidate_loop ctx current_signature_tokens intent candidates).invalid_reasons
            ui_change_level,
          llm_used := ctx.llm_enabled,
          history_assisted := decide (0 <
            (run_candidate_loop ctx current_signature_tokens intent candidates).total_history_hits),
          history_hits :=
            (run_candidate_loop ctx current_signature_tokens intent candidates).total_history_hits,
          retrieval_assisted := decide (0 <
            (run_candidate_loop ctx current_signature_tokens intent
              candidates).total_retrieval_hits),
          retrieval_hits :=
            (run_candidate_loop ctx current_signature_tokens intent
              candidates).total_retrieval_hits,
          retrieved_versions := [] } := by
      show select_validated_candidate ctx candidates failed_selector use_of_selector
        page_url intent_key current_signature_tokens ui_change_level = _
      unfold select_validated_candidate
      rw [if_neg h1]
      simp only []
      rw [if_pos h2]
    rw [hd]
    exact ⟨hhh, hrr, fun r hr => absurd hr (List.not_mem_nil r), fun _ => rfl⟩
  · by_cases h3 : (((List.insertionSort (fun a b => b.1 ≤ a.1)
        (run_candidate_loop ctx current_signature_tokens intent candidates).scored).headD
          (0, {})).1) < 28 / 100
    · have hd : d =
          { chosen := none, validation_status := "NO_SAFE_MATCH",
            validation_reason := low_score_reason
              (((List.insertionSort (fun a b => b.1 ≤ a.1)
                (run_candidate_loop ctx current_signature_tokens intent
                  candidates).scored).headD (0, {})).1),
            llm_used := ctx.llm_enabled,
            history_assisted := decide (0 <
              (run_candidate_loop ctx current_signature_tokens intent
                candidates).total_history_hits),
            history_hits :=
              (run_candidate_loop ctx current_signature_tokens intent
                candidates).total_history_hits,
            retrieval_assisted := decide (0 <
              (run_candidate_loop ctx current_signature_tokens intent
                candidates).total_retrieval_hits),
            retrieval_hits :=
              (run_candidate_loop ctx current_signature_tokens intent
                candidates).total_retrieval_hits,
            retrieved_versions := [] } := by
        show select_validated_candidate ctx candidates failed_selector use_of_selector
          page_url intent_key current_signature_tokens ui_change_level = _
        unfold select_validated_candidate
        rw [if_neg h1]
        simp only []
        rw [if_neg h2, if_pos h3]
      rw [hd]
      exact ⟨hhh, hrr, fun r hr => absurd hr (List.not_mem_nil r), fun _ => rfl⟩
    · have hd : d =
          { chosen := some (((List.insertionSort (fun a b => b.1 ≤ a.1)
              (run_candidate_loop ctx current_signature_tokens intent
                candidates).scored).headD (0, {})).2.selector),
            validation_status := "VALID",
            validation_reason := "Selector passed rule/history/LLM validation",
            llm_used := ctx.llm_enabled,
            history_assisted := decide (0 <
              (run_candidate_loop ctx current_signature_tokens intent
                candidates).total_history_hits),
            history_hits :=
              (run_candidate_loop ctx current_signature_tokens intent
                candidates).total_history_hits,
            retrieval_assisted := decide (0 <
              (run_candidate_loop ctx current_signature_tokens intent
                candidates).total_retrieval_hits),
            retrieval_hits :=
              (run_candidate_loop ctx current_signature_tokens intent
                candidates).total_retrieval_hits,
            retrieved_versions := dict_get
              (run_candidate_loop ctx current_signature_tokens intent
                candidates).retrieval_by_selector
              (pyNormalize (((List.insertionSort (fun a b => b.1 ≤ a.1)
                (run_candidate_loop ctx current_signature_tokens intent
                  candidates).scored).headD (0, {})).2.selector)) } := by
        show select_validated_candidate ctx candidates failed_selector use_of_selector
          page_url intent_key current_signature_tokens ui_change_level = _
        unfold select_validated_candidate
        rw [if_neg h1]
        simp only []
        rw [if_neg h2, if_neg h3]
      rw [hd]
      refine ⟨hhh, hrr, ?_, ?_⟩
      · intro r hr
        exact dict_get_sound _ _
          (run_loop_dict_inv ctx current_signature_tokens intent candidates) r hr
      · intro habs
        exact absurd habs valid_ne_no_safe_match

/-- C10 witness: a singleton candidate list. -/
theorem c10_decision_accounting_witness :
    ([{ selector := "button.submit", score := 4 / 10 }] ≠ ([] : List VCandidate))
    ∧ (let intent := resolve_intent ({} : ValidationCtx).policies "" "press the button"
       let d := select_validated_candidate {} [{ selector := "button.submit", score := 4 / 10 }]
           "button.old" "press the button" "" "" [] "UNKNOWN"
       d.history_hits = ((passing_candidates {} intent
            [{ selector := "button.submit", score := 4 / 10 }]).map
          (fun c => (history_boost ({} : ValidationCtx).recent c.selector).2)).sum
       ∧ d.retrieval_hits = ((passing_candidates {} intent
            [{ selector := "button.submit", score := 4 / 10 }]).map
          (fun c => (retrieval_boost ({} : ValidationCtx).snaps [] c.selector).2.length)).sum
       ∧ (∀ r ∈ d.retrieved_versions,
            pyNormalize r.healed_selector = pyNormalize (d.chosen.getD ""))
       ∧ (d.validation_status = "NO_SAFE_MATCH" → d.retrieved_versions = [])) :=
  ⟨by decide,
    c10_decision_accounting {} [{ selector := "button.submit", score := 4 / 10 }]
      "button.old" "press the button" "" "" [] "UNKNOWN" (by decide)⟩

/-- C1 (amended): the engine raises on an empty element list instead of
returning an empty candidate list, the heal pipeline catches the failure and
substitutes an empty candidate list, and validation of an empty candidate
list reports NO_SAFE_MATCH with no chosen selector. -/
theorem c1_soft_fail_empty_elements (retrieved : List (ℕ × ℚ)) (selector semantic : String)
    (ctx : ValidationCtx) (failed_selector use_of_selector page_url intent_key : String)
    (current_signature_tokens : List String) (ui_change_level : String) :
    process_heal_rank [] retrieved selector semantic = []
    ∧ (select_validated_candidate ctx [] failed_selector use_of_selector page_url intent_key
        current_signature_tokens ui_change_level).validation_status = "NO_SAFE_MATCH"
    ∧ (select_validated_candidate ctx [] failed_selector use_of_selector page_url intent_key
        current_signature_tokens ui_change_level).chosen = none :=
  ⟨rfl, rfl, rfl⟩

/-! ## Request boundary: serializers.py, views.py HealAPIView.post, main.py heal -/

/-- HTTP outcome of one heal request at the framework boundary. -/
inductive HttpResponse (α : Type) where
  | ok200 (body : α)
  | badRequest400 (detail : String)
  | error500 (detail : String)
deriving DecidableEq

/-- The fields of the heal response relevant to the safe-failure shape. -/
structure SafeHealResponse where
  chosen : Option String := none
  validation_status : String := ""
  validation_reason : String := ""
  candidates : List VCandidate := []
  history_hits : ℕ := 0
  retrieval_hits : ℕ := 0
  ui_change_level : String := ""
deriving DecidableEq

/-- The fail-safe response built in the outer except-handler of
HealAPIView.post (subset of its fields). -/
def heal_safe_response (e : String) : SafeHealResponse :=
  { chosen := none, validation_status := "NO_SAFE_MATCH",
    validation_reason := "Healer internal error: " ++ (⟨e.data.take 200⟩ : String),
    candidates := [], history_hits := 0, retrieval_hits := 0,
    ui_change_level := "UNKNOWN" }

/-- The heal-request payload fields checked by HealRequestSerializer
(semantic_dom is a JSON object; a provided object is modelled as present,
the pipeline reading only its element list). -/
structure HealRequestInput where
  failed_selector : String := ""
  html : Option String := none
  semantic_dom : Option (List Element) := none
  use_of_selector : String := ""
  page_url : Option String := none
  intent_key : Option String := none
deriving DecidableEq

/-- Python truthiness of an optional string field (absent, null and blank
are all falsy). -/
def py_truthy_str (o : Option String) : Bool :=
  match o with
  | none => false
  | some s => ! s.isEmpty

/-- Source HealRequestSerializer.validate: reject when neither html nor
semantic_dom is provided. -/
def heal_request_validate (attrs : HealRequestInput) : Except String HealRequestInput :=
  if py_truthy_str attrs.html = false ∧ attrs.semantic_dom.isSome = false then
    Except.error "At least one of \x27html\x27 or \x27semantic_dom\x27 must be provided"
  else Except.ok attrs

/-- Source HealAPIView.post control flow: the client lookup raises an
uncaught ValueError for an unknown client (HTTP 500 at the Django
boundary), serializer failure returns HTTP 400, and only then does the
try-block convert any pipeline exception into the safe 200 response. -/
def heal_post (client_valid : Bool) (attrs : HealRequestInput)
    (pipeline : Except String SafeHealResponse) : HttpResponse SafeHealResponse :=
  if client_valid = false then
    HttpResponse.error500 "Invalid Client ID in token"
  else
    match heal_request_validate attrs with
    | Except.error _ => HttpResponse.badRequest400 "Validation failed"
    | Except.ok _ =>
      match pipeline with
      | Except.ok result => HttpResponse.ok200 result
      | Except.error e => HttpResponse.ok200 (heal_safe_response e)

/-- Source main.py heal endpoint: any exception is re-raised as
HTTPException with status 500. -/
def main_heal (pipeline : Except String SafeHealResponse) :
    HttpResponse SafeHealResponse :=
  match pipeline with
  | Except.ok result => HttpResponse.ok200 result
  | Except.error e => HttpResponse.error500 ("Healing failed: " ++ e)

/-- C2 counterexample: the heal operation can return HTTP 500.  The main.py
heal endpoint converts a pipeline exception into an HTTP 500, and the
Django view raises an uncaught ValueError (an HTTP 500) for an unknown
client id before the protective try-block. -/
theorem c2_counterexample :
    main_heal (Except.error "boom") = HttpResponse.error500 "Healing failed: boom"
    ∧ heal_post false
        { failed_selector := "a", html := some "<p></p>", use_of_selector := "u" }
        (Except.ok {})
      = HttpResponse.error500 "Invalid Client ID in token" :=
  ⟨rfl, rfl⟩

/-- C2 (amended): once the client resolves and the input validates, any
pipeline exception in the Django heal view is caught and converted into a
successfully delivered NO_SAFE_MATCH-shaped response (chosen null,
validation_status NO_SAFE_MATCH, empty candidates) with HTTP 200; the
conversion does not extend to the client-lookup ValueError or to the
FastAPI endpoint in main.py, which both yield HTTP 500. -/
theorem c2_exception_boundary (attrs : HealRequestInput) (e : String)
    (hvalid : heal_request_validate attrs = Except.ok attrs) :
    heal_post true attrs (Except.error e) = HttpResponse.ok200 (heal_safe_response e)
    ∧ (heal_safe_response e).chosen = none
    ∧ (heal_safe_response e).validation_status = "NO_SAFE_MATCH"
    ∧ (heal_safe_response e).candidates = [] := by
  refine ⟨?_, rfl, rfl, rfl⟩
  unfold heal_post
  rw [hvalid]
  rfl

/-- C2 witness: a request with an html source whose pipeline raises. -/
theorem c2_exception_boundary_witness :
    (heal_request_validate
        { failed_selector := "a", html := some "<p></p>", use_of_selector := "u" }
      = Except.ok { failed_selector := "a", html := some "<p></p>", use_of_selector := "u" })
    ∧ (heal_post true { failed_selector := "a", html := some "<p></p>", use_of_selector := "u" }
          (Except.error "boom")
        = HttpResponse.ok200 (heal_safe_response "boom")
       ∧ (heal_safe_response "boom").chosen = none
       ∧ (heal_safe_response "boom").validation_status = "NO_SAFE_MATCH"
       ∧ (heal_safe_response "boom").candidates = []) :=
  ⟨rfl,
    c2_exception_boundary { failed_selector := "a", html := some "<p></p>", use_of_selector := "u" }
      "boom" rfl⟩

/-- C9: an input providing neither html nor semantic_dom is rejected by the
serializer (the MissingDomSource input error), and the view returns HTTP 400
without running the healing pipeline. -/
theorem c9_missing_dom_source (attrs : HealRequestInput)
    (pipeline : Except String SafeHealResponse)
    (hhtml : attrs.html = none ∨ attrs.html = some "")
    (hdom : attrs.semantic_dom = none) :
    heal_request_validate attrs
      = Except.error "At least one of \x27html\x27 or \x27semantic_dom\x27 must be provided"
    ∧ heal_post true attrs pipeline = HttpResponse.badRequest400 "Validation failed" := by
  have htruthy : py_truthy_str attrs.html = false := by
    rcases hhtml with h | h <;> rw [h] <;> rfl
  have hsome : attrs.semantic_dom.isSome = false := by rw [hdom]; rfl
  have hval : heal_request_validate attrs
      = Except.error "At least one of \x27html\x27 or \x27semantic_dom\x27 must be provided" := by
    unfold heal_request_validate
    rw [if_pos ⟨htruthy, hsome⟩]
  refine ⟨hval, ?_⟩
  unfold heal_post
  rw [hval]
  rfl

/-- C9 witness: the empty request payload. -/
theorem c9_missing_dom_source_witness :
    ((({} : HealRequestInput).html = none ∨ ({} : HealRequestInput).html = some "")
      ∧ ({} : HealRequestInput).semantic_dom = none)
    ∧ (heal_request_validate {}
        = Except.error "At least one of \x27html\x27 or \x27semantic_dom\x27 must be provided"
       ∧ heal_post true {} (Except.ok {}) = HttpResponse.badRequest400 "Validation failed") :=
  ⟨⟨Or.inl rfl, rfl⟩, c9_missing_dom_source {} (Except.ok {}) (Or.inl rfl) rfl⟩

end HealerSpec
